import Mathlib

/-!
Verification of the scene-cube renderer (src/src/scene-cube-renderer.ts).

The renderer takes an already-projected cube snapshot (8 vertex points,
6 cross-section points, two axis triples with their origins) and a set of
per-feature rendering options, and emits a flat list of 2D drawable
primitive specifications (polygons, line bundles, point markers).

Numbers are modelled as rationals; exactly 2D coordinates are consumed
by the renderer.  JavaScript's `a || b` fallback on numbers is modelled
by `jsOr`, which falls back on both `undefined` (none) and `0`.
-/

/-- Modelled from the spec: a 2D point (the renderer only reads the
`x` and `y` coordinates of the `Vector` objects supplied by the
cube-geometry collaborator, `src/vector.ts` not being part of the core). -/
structure Vec2 where
  x : ℚ
  y : ℚ
deriving DecidableEq

instance : Inhabited Vec2 := ⟨⟨0, 0⟩⟩

/-- Modelled from the spec: the primitive kind tag (`DataSpecType` in
`src/primitive-types.ts`): polygon, line bundle or point marker. -/
inductive DataSpecType
  | polygon
  | lines
  | points
deriving DecidableEq

/-- Modelled from the spec: polygon spec — parallel x/y coordinate
sequences, border color/opacity/width, fill color/opacity, and a tag. -/
structure Polygon2dSpecs where
  x : List ℚ
  y : List ℚ
  borderColor : String
  borderOpacity : ℚ
  borderSize : ℚ
  fillColor : String
  fillOpacity : ℚ
  type : DataSpecType
  id : String
deriving DecidableEq

instance : Inhabited Polygon2dSpecs :=
  ⟨⟨[], [], "", 0, 0, "", 0, DataSpecType.polygon, ""⟩⟩

/-- Modelled from the spec: line-bundle spec — four parallel sequences
(x0, y0, x1, y1) describing independent segments, plus style and a tag. -/
structure Lines2dSpecs where
  x0 : List ℚ
  y0 : List ℚ
  x1 : List ℚ
  y1 : List ℚ
  color : String
  opacity : ℚ
  size : ℚ
  type : DataSpecType
  id : String
deriving DecidableEq

/-- Modelled from the spec: point-marker spec — parallel x/y sequences,
color, opacity, size and a tag. -/
structure Points2dSpecs where
  x : List ℚ
  y : List ℚ
  color : String
  opacity : ℚ
  size : ℚ
  type : DataSpecType
  id : String
deriving DecidableEq

/-- Modelled from the spec: the tagged union of the three primitive
spec shapes (`Data2dSpecs` in `src/primitive-types.ts`). -/
inductive Data2dSpecs
  | polygon : Polygon2dSpecs → Data2dSpecs
  | lines : Lines2dSpecs → Data2dSpecs
  | points : Points2dSpecs → Data2dSpecs
deriving DecidableEq

/-- The tag (`id` field) carried by a primitive spec. -/
def Data2dSpecs.tagOf : Data2dSpecs → String
  | .polygon s => s.id
  | .lines s => s.id
  | .points s => s.id

/-- Modelled from the spec: per-axis-triple options (`AxesOptions` in
`src/parameter-types.ts`): per-axis colors, line size, line opacity,
intersection-point color and size.  The numeric style fields may be
omitted, hence `Option`. -/
structure AxesOptions where
  intersectionPointColor : String
  intersectionPointSize : Option ℚ
  xColor : String
  yColor : String
  zColor : String
  lineSize : Option ℚ
  edgeOpacity : Option ℚ
deriving DecidableEq

/-- Modelled from the spec: the scene-edges config `{color, opacity}`,
with opacity possibly omitted. -/
structure SceneEdgesOptions where
  color : String
  opacity : Option ℚ
deriving DecidableEq

/-- Modelled from the spec: the rendering options (`SceneOptions` in
`src/parameter-types.ts`).  Each feature's config is independently
absent (`none`) meaning "disabled"; `xyPlane` and `crossLines` carry no
style payload, only presence/absence. -/
structure SceneOptions where
  sceneEdges : Option SceneEdgesOptions
  xyPlane : Option Unit
  crossLines : Option Unit
  edgeAxes : Option AxesOptions
  worldAxes : Option AxesOptions
  cubeAxes : Option AxesOptions
deriving DecidableEq

/-- Modelled from the spec: the cube snapshot interface consumed by the
renderer (`src/scene-cube.ts` not being part of the core): 8 projected
vertex points, 6 projected cross-section points, the two projected
axis-direction triples and their origin points. -/
structure SceneCube where
  vertexPoints2d : List Vec2
  crossPoints2d : List Vec2
  axes2d : List Vec2
  worldAxes2d : List Vec2
  worldOrigin2d : Vec2
  center2d : Vec2
deriving DecidableEq

/-- JavaScript `v || d` on an optional number: falls back to `d` when
the value is absent or equal to 0 (0 is falsy in JavaScript). -/
def jsOr (v : Option ℚ) (d : ℚ) : ℚ :=
  match v with
  | none => d
  | some r => if r = 0 then d else r

/-- The static face topology table `POINT_FACE_SET`: for each of the 6
cube faces, the 4 bounding vertex indices in winding order. -/
def POINT_FACE_SET : List (List ℕ) :=
  [[0, 1, 3, 2],
   [1, 5, 7, 3],
   [5, 4, 6, 7],
   [4, 0, 2, 6],
   [4, 5, 1, 0],
   [2, 3, 7, 6]]

/-- `drawAxis`: one single-segment line bundle from `p` to `v`, tagged
with the shared axis tag scheme `x-<name>`. -/
def drawAxis (p v : Vec2) (color : String) (opacity size : ℚ)
    (name : String) : Lines2dSpecs :=
  { x0 := [p.x]
    y0 := [p.y]
    x1 := [v.x]
    y1 := [v.y]
    color := color
    opacity := opacity
    size := size
    type := DataSpecType.lines
    id := "x-" ++ name }

/-- `drawAxes`: the shared axis-triple routine — three line bundles
(origin to each direction point) and one origin point marker. -/
def drawAxes (p0 vx vy vz : Vec2) (name : String)
    (ao : AxesOptions) : List Data2dSpecs :=
  let opacity := jsOr ao.edgeOpacity 1
  let size := jsOr ao.lineSize 1
  let xAxis := drawAxis p0 vx ao.xColor opacity size name
  let yAxis := drawAxis p0 vy ao.yColor opacity size name
  let zAxis := drawAxis p0 vz ao.zColor opacity size name
  let centerPoint : Points2dSpecs :=
    { x := [p0.x]
      y := [p0.y]
      color := ao.intersectionPointColor
      opacity := 1
      size := jsOr ao.intersectionPointSize 3
      type := DataSpecType.points
      id := "point-" ++ name }
  [Data2dSpecs.lines xAxis, Data2dSpecs.lines yAxis,
   Data2dSpecs.lines zAxis, Data2dSpecs.points centerPoint]

namespace SceneCubeRenderer

/-- `drawBox`: one outline-only polygon per face of the topology table,
present only when the `sceneEdges` config is present. -/
def drawBox (cube : SceneCube) (sceneOptions : SceneOptions) :
    List Polygon2dSpecs :=
  match sceneOptions.sceneEdges with
  | none => []
  | some se =>
      let p := cube.vertexPoints2d
      POINT_FACE_SET.enum.map (fun pair =>
        let index := pair.1
        let pointIndices := pair.2
        let a := pointIndices.getD 0 0
        let b := pointIndices.getD 1 0
        let c := pointIndices.getD 2 0
        let d := pointIndices.getD 3 0
        { x := [(p.getD a default).x, (p.getD b default).x,
                (p.getD c default).x, (p.getD d default).x]
          y := [(p.getD a default).y, (p.getD b default).y,
                (p.getD c default).y, (p.getD d default).y]
          borderColor := se.color
          borderOpacity := jsOr se.opacity 1
          borderSize := 1
          fillColor := se.color
          fillOpacity := 0
          type := DataSpecType.polygon
          id := "plane-" ++ toString index })

/-- `drawEdges`: edge axes anchored at vertex 6, directed at vertices
7, 4 and 2; empty when `edgeAxes` is absent. -/
def drawEdges (cube : SceneCube) (sceneOptions : SceneOptions) :
    List Data2dSpecs :=
  match sceneOptions.edgeAxes with
  | none => []
  | some edgeAxes =>
      let p := cube.vertexPoints2d
      drawAxes (p.getD 6 default) (p.getD 7 default) (p.getD 4 default)
        (p.getD 2 default) "edge" edgeAxes

/-- `drawWorldAxes`: world axes anchored at the world origin; empty
when `worldAxes` is absent. -/
def drawWorldAxes (cube : SceneCube) (sceneOptions : SceneOptions) :
    List Data2dSpecs :=
  match sceneOptions.worldAxes with
  | none => []
  | some worldAxes =>
      let v := cube.worldAxes2d
      drawAxes cube.worldOrigin2d (v.getD 0 default) (v.getD 1 default)
        (v.getD 2 default) "worldAxes" worldAxes

/-- `drawCubeAxes`: cube-local axes anchored at the cube center; empty
when `cubeAxes` is absent. -/
def drawCubeAxes (cube : SceneCube) (sceneOptions : SceneOptions) :
    List Data2dSpecs :=
  match sceneOptions.cubeAxes with
  | none => []
  | some cubeAxes =>
      let v := cube.axes2d
      drawAxes cube.center2d (v.getD 0 default) (v.getD 1 default)
        (v.getD 2 default) "axes" cubeAxes

/-- `drawXYplane`: one filled polygon over the back-face vertices
4, 5, 7, 6, with fixed styling; unconditional (reads no options). -/
def drawXYplane (cube : SceneCube) : List Polygon2dSpecs :=
  let p := cube.vertexPoints2d
  let polygon : Polygon2dSpecs :=
    { x := [(p.getD 4 default).x, (p.getD 5 default).x,
            (p.getD 7 default).x, (p.getD 6 default).x]
      y := [(p.getD 4 default).y, (p.getD 5 default).y,
            (p.getD 7 default).y, (p.getD 6 default).y]
      fillColor := "#0e2845"
      fillOpacity := 1/2
      borderColor := "#0e2845"
      borderOpacity := 1
      borderSize := 1
      type := DataSpecType.polygon
      id := "xy-plane" }
  [polygon]

/-- `drawCrossSectionLines`: one line bundle of 8 segments pairing the
6 cross-section points and 4 back-face vertices, with fixed styling;
unconditional (reads no options). -/
def drawCrossSectionLines (cube : SceneCube) : List Lines2dSpecs :=
  let p := cube.crossPoints2d
  let t := cube.vertexPoints2d
  let lines : Lines2dSpecs :=
    { x0 := [(p.getD 0 default).x, (p.getD 1 default).x,
             (p.getD 1 default).x, (p.getD 3 default).x,
             (t.getD 6 default).x, (t.getD 4 default).x,
             (t.getD 5 default).x, (t.getD 7 default).x]
      y0 := [(p.getD 0 default).y, (p.getD 1 default).y,
             (p.getD 1 default).y, (p.getD 3 default).y,
             (t.getD 6 default).y, (t.getD 4 default).y,
             (t.getD 5 default).y, (t.getD 7 default).y]
      x1 := [(p.getD 3 default).x, (p.getD 2 default).x,
             (p.getD 4 default).x, (p.getD 5 default).x,
             (t.getD 4 default).x, (t.getD 5 default).x,
             (t.getD 7 default).x, (t.getD 6 default).x]
      y1 := [(p.getD 3 default).y, (p.getD 2 default).y,
             (p.getD 4 default).y, (p.getD 5 default).y,
             (t.getD 4 default).y, (t.getD 5 default).y,
             (t.getD 7 default).y, (t.getD 6 default).y]
      color := "#079992"
      opacity := 1/2
      size := 1
      type := DataSpecType.lines
      id := "cross-section-lines" }
  [lines]

/-- `render`: the top-level composition — the concatenation, in source
order, of the seven sub-renderer calls (XY-plane is called twice). -/
def render (cube : SceneCube) (sceneOptions : SceneOptions) :
    List Data2dSpecs :=
  (drawBox cube sceneOptions).map Data2dSpecs.polygon
    ++ (drawXYplane cube).map Data2dSpecs.polygon
    ++ drawEdges cube sceneOptions
    ++ (drawXYplane cube).map Data2dSpecs.polygon
    ++ (drawCrossSectionLines cube).map Data2dSpecs.lines
    ++ drawWorldAxes cube sceneOptions
    ++ drawCubeAxes cube sceneOptions

end SceneCubeRenderer

/-- The opacity style field carried by a primitive spec (border opacity
for polygons). -/
def Data2dSpecs.opacityOf : Data2dSpecs → ℚ
  | .polygon s => s.borderOpacity
  | .lines s => s.opacity
  | .points s => s.opacity

/-- The size style field carried by a primitive spec (border size for
polygons). -/
def Data2dSpecs.styleSize : Data2dSpecs → ℚ
  | .polygon s => s.borderSize
  | .lines s => s.size
  | .points s => s.size

/-- A concrete cube snapshot used to witness the theorems. -/
def testCube : SceneCube :=
  { vertexPoints2d :=
      [⟨0, 0⟩, ⟨1, 0⟩, ⟨0, 1⟩, ⟨1, 1⟩, ⟨2, 0⟩, ⟨3, 0⟩, ⟨2, 1⟩, ⟨3, 1⟩]
    crossPoints2d := [⟨0, 2⟩, ⟨1, 2⟩, ⟨2, 2⟩, ⟨3, 2⟩, ⟨4, 2⟩, ⟨5, 2⟩]
    axes2d := [⟨1, 0⟩, ⟨0, 1⟩, ⟨1, 1⟩]
    worldAxes2d := [⟨2, 0⟩, ⟨0, 2⟩, ⟨2, 2⟩]
    worldOrigin2d := ⟨0, 0⟩
    center2d := ⟨1, 1⟩ }

/-- Options with every feature config absent. -/
def optsAllAbsent : SceneOptions :=
  { sceneEdges := none, xyPlane := none, crossLines := none,
    edgeAxes := none, worldAxes := none, cubeAxes := none }

/-- Options with only the presence-only fields set, used to witness
that render ignores `xyPlane` and `crossLines`. -/
def optsPresenceOnly : SceneOptions :=
  { sceneEdges := none, xyPlane := some (), crossLines := some (),
    edgeAxes := none, worldAxes := none, cubeAxes := none }

/-- A scene-edges config with the spec example styling. -/
def seTest : SceneEdgesOptions :=
  { color := "#fff", opacity := some (Rat.mk' 4 5) }

/-- A scene-edges config with opacity explicitly 0. -/
def seZero : SceneEdgesOptions := { color := "#fff", opacity := some 0 }

/-- Options with only the scene-edges config present (opacity 0.8). -/
def optsEdges : SceneOptions :=
  { sceneEdges := some seTest, xyPlane := none, crossLines := none,
    edgeAxes := none, worldAxes := none, cubeAxes := none }

/-- Options with only the scene-edges config present, opacity 0. -/
def optsEdgesZero : SceneOptions :=
  { sceneEdges := some seZero, xyPlane := none, crossLines := none,
    edgeAxes := none, worldAxes := none, cubeAxes := none }

/-- An axes-option bundle whose numeric style fields are all
explicitly 0. -/
def aoZero : AxesOptions :=
  { intersectionPointColor := "#aaa", intersectionPointSize := some 0,
    xColor := "red", yColor := "green", zColor := "blue",
    lineSize := some 0, edgeOpacity := some 0 }

/-- C6: The face table has exactly 6 entries, each listing 4 pairwise
distinct vertex indices in [0,7], and each of the indices 0..7 occurs
in exactly 3 of the 6 entries. -/
theorem pointFaceSet_cube_combinatorics :
    POINT_FACE_SET.length = 6
    ∧ (∀ face ∈ POINT_FACE_SET, face.length = 4 ∧ face.Nodup
        ∧ ∀ i ∈ face, i < 8)
    ∧ ∀ v < 8, (POINT_FACE_SET.filter (fun face => v ∈ face)).length = 3 := by
  refine ⟨rfl, ?_, ?_⟩ <;> decide

/-- C1: render() returns exactly the concatenation, in this order, of
the outputs of the box renderer, the XY-plane renderer, the edge-axes
renderer, the XY-plane renderer a second time, the cross-section-lines
renderer, the world-axes renderer and the cube-axes renderer, with no
deduplication and no reordering. -/
theorem render_is_ordered_concatenation
    (cube : SceneCube) (opts : SceneOptions) :
    SceneCubeRenderer.render cube opts =
      (SceneCubeRenderer.drawBox cube opts).map Data2dSpecs.polygon
        ++ (SceneCubeRenderer.drawXYplane cube).map Data2dSpecs.polygon
        ++ SceneCubeRenderer.drawEdges cube opts
        ++ (SceneCubeRenderer.drawXYplane cube).map Data2dSpecs.polygon
        ++ (SceneCubeRenderer.drawCrossSectionLines cube).map
            Data2dSpecs.lines
        ++ SceneCubeRenderer.drawWorldAxes cube opts
        ++ SceneCubeRenderer.drawCubeAxes cube opts := rfl

/-- C5: the cross-section-lines renderer returns exactly one line
bundle of exactly 8 segments pairing cross-points 0–3, 1–2, 1–4, 3–5
and vertices 6–4, 4–5, 5–7, 7–6, with color "#079992", opacity 0.5,
size 1 and tag "cross-section-lines", for every cube snapshot. -/
theorem drawCrossSectionLines_spec (cube : SceneCube) :
    SceneCubeRenderer.drawCrossSectionLines cube =
      [{ x0 := [(cube.crossPoints2d.getD 0 default).x,
                (cube.crossPoints2d.getD 1 default).x,
                (cube.crossPoints2d.getD 1 default).x,
                (cube.crossPoints2d.getD 3 default).x,
                (cube.vertexPoints2d.getD 6 default).x,
                (cube.vertexPoints2d.getD 4 default).x,
                (cube.vertexPoints2d.getD 5 default).x,
                (cube.vertexPoints2d.getD 7 default).x]
         y0 := [(cube.crossPoints2d.getD 0 default).y,
                (cube.crossPoints2d.getD 1 default).y,
                (cube.crossPoints2d.getD 1 default).y,
                (cube.crossPoints2d.getD 3 default).y,
                (cube.vertexPoints2d.getD 6 default).y,
                (cube.vertexPoints2d.getD 4 default).y,
                (cube.vertexPoints2d.getD 5 default).y,
                (cube.vertexPoints2d.getD 7 default).y]
         x1 := [(cube.crossPoints2d.getD 3 default).x,
                (cube.crossPoints2d.getD 2 default).x,
                (cube.crossPoints2d.getD 4 default).x,
                (cube.crossPoints2d.getD 5 default).x,
                (cube.vertexPoints2d.getD 4 default).x,
                (cube.vertexPoints2d.getD 5 default).x,
                (cube.vertexPoints2d.getD 7 default).x,
                (cube.vertexPoints2d.getD 6 default).x]
         y1 := [(cube.crossPoints2d.getD 3 default).y,
                (cube.crossPoints2d.getD 2 default).y,
                (cube.crossPoints2d.getD 4 default).y,
                (cube.crossPoints2d.getD 5 default).y,
                (cube.vertexPoints2d.getD 4 default).y,
                (cube.vertexPoints2d.getD 5 default).y,
                (cube.vertexPoints2d.getD 7 default).y,
                (cube.vertexPoints2d.getD 6 default).y]
         color := "#079992"
         opacity := 1/2
         size := 1
         type := DataSpecType.lines
         id := "cross-section-lines" }]
    ∧ (SceneCubeRenderer.drawCrossSectionLines cube).length = 1
    ∧ ∀ s ∈ SceneCubeRenderer.drawCrossSectionLines cube,
        s.x0.length = 8 ∧ s.y0.length = 8 ∧ s.x1.length = 8
          ∧ s.y1.length = 8 := by
  refine ⟨rfl, rfl, ?_⟩
  intro s hs
  simp only [SceneCubeRenderer.drawCrossSectionLines, List.mem_singleton] at hs
  subst hs
  exact ⟨rfl, rfl, rfl, rfl⟩

/-- C3: the shared axis routine returns exactly 4 primitives — 3
single-segment line bundles from the origin to the respective direction
point, per-axis colored, all tagged `x-<name>`, and one origin point
marker tagged `point-<name>` with opacity 1.0; and when edgeOpacity,
lineSize and intersectionPointSize are omitted the line opacity is 1,
the line size is 1 and the marker size is 3. -/
theorem drawAxes_spec (p0 vx vy vz : Vec2) (name : String)
    (ao : AxesOptions) :
    drawAxes p0 vx vy vz name ao =
      [Data2dSpecs.lines
        { x0 := [p0.x], y0 := [p0.y], x1 := [vx.x], y1 := [vx.y],
          color := ao.xColor, opacity := jsOr ao.edgeOpacity 1,
          size := jsOr ao.lineSize 1, type := DataSpecType.lines,
          id := "x-" ++ name },
       Data2dSpecs.lines
        { x0 := [p0.x], y0 := [p0.y], x1 := [vy.x], y1 := [vy.y],
          color := ao.yColor, opacity := jsOr ao.edgeOpacity 1,
          size := jsOr ao.lineSize 1, type := DataSpecType.lines,
          id := "x-" ++ name },
       Data2dSpecs.lines
        { x0 := [p0.x], y0 := [p0.y], x1 := [vz.x], y1 := [vz.y],
          color := ao.zColor, opacity := jsOr ao.edgeOpacity 1,
          size := jsOr ao.lineSize 1, type := DataSpecType.lines,
          id := "x-" ++ name },
       Data2dSpecs.points
        { x := [p0.x], y := [p0.y],
          color := ao.intersectionPointColor, opacity := 1,
          size := jsOr ao.intersectionPointSize 3,
          type := DataSpecType.points, id := "point-" ++ name }]
    ∧ drawAxes p0 vx vy vz name
        { intersectionPointColor := ao.intersectionPointColor,
          intersectionPointSize := none, xColor := ao.xColor,
          yColor := ao.yColor, zColor := ao.zColor,
          lineSize := none, edgeOpacity := none } =
      [Data2dSpecs.lines
        { x0 := [p0.x], y0 := [p0.y], x1 := [vx.x], y1 := [vx.y],
          color := ao.xColor, opacity := 1, size := 1,
          type := DataSpecType.lines, id := "x-" ++ name },
       Data2dSpecs.lines
        { x0 := [p0.x], y0 := [p0.y], x1 := [vy.x], y1 := [vy.y],
          color := ao.yColor, opacity := 1, size := 1,
          type := DataSpecType.lines, id := "x-" ++ name },
       Data2dSpecs.lines
        { x0 := [p0.x], y0 := [p0.y], x1 := [vz.x], y1 := [vz.y],
          color := ao.zColor, opacity := 1, size := 1,
          type := DataSpecType.lines, id := "x-" ++ name },
       Data2dSpecs.points
        { x := [p0.x], y := [p0.y],
          color := ao.intersectionPointColor, opacity := 1, size := 3,
          type := DataSpecType.points, id := "point-" ++ name }] :=
  ⟨rfl, rfl⟩

/-- C2: with sceneEdges, edgeAxes, worldAxes and cubeAxes all absent,
render() returns exactly 3 primitives: the XY-plane polygon twice
(value-identical) followed by the cross-section line bundle. -/
theorem render_all_axes_absent (cube : SceneCube) (opts : SceneOptions)
    (h1 : opts.sceneEdges = none) (h2 : opts.edgeAxes = none)
    (h3 : opts.worldAxes = none) (h4 : opts.cubeAxes = none) :
    SceneCubeRenderer.render cube opts =
      [Data2dSpecs.polygon
        ((SceneCubeRenderer.drawXYplane cube).getD 0 default),
       Data2dSpecs.polygon
        ((SceneCubeRenderer.drawXYplane cube).getD 0 default),
       Data2dSpecs.lines
        { x0 := [(cube.crossPoints2d.getD 0 default).x,
                 (cube.crossPoints2d.getD 1 default).x,
                 (cube.crossPoints2d.getD 1 default).x,
                 (cube.crossPoints2d.getD 3 default).x,
                 (cube.vertexPoints2d.getD 6 default).x,
                 (cube.vertexPoints2d.getD 4 default).x,
                 (cube.vertexPoints2d.getD 5 default).x,
                 (cube.vertexPoints2d.getD 7 default).x]
          y0 := [(cube.crossPoints2d.getD 0 default).y,
                 (cube.crossPoints2d.getD 1 default).y,
                 (cube.crossPoints2d.getD 1 default).y,
                 (cube.crossPoints2d.getD 3 default).y,
                 (cube.vertexPoints2d.getD 6 default).y,
                 (cube.vertexPoints2d.getD 4 default).y,
                 (cube.vertexPoints2d.getD 5 default).y,
                 (cube.vertexPoints2d.getD 7 default).y]
          x1 := [(cube.crossPoints2d.getD 3 default).x,
                 (cube.crossPoints2d.getD 2 default).x,
                 (cube.crossPoints2d.getD 4 default).x,
                 (cube.crossPoints2d.getD 5 default).x,
                 (cube.vertexPoints2d.getD 4 default).x,
                 (cube.vertexPoints2d.getD 5 default).x,
                 (cube.vertexPoints2d.getD 7 default).x,
                 (cube.vertexPoints2d.getD 6 default).x]
          y1 := [(cube.crossPoints2d.getD 3 default).y,
                 (cube.crossPoints2d.getD 2 default).y,
                 (cube.crossPoints2d.getD 4 default).y,
                 (cube.crossPoints2d.getD 5 default).y,
                 (cube.vertexPoints2d.getD 4 default).y,
                 (cube.vertexPoints2d.getD 5 default).y,
                 (cube.vertexPoints2d.getD 7 default).y,
                 (cube.vertexPoints2d.getD 6 default).y]
          color := "#079992"
          opacity := 1/2
          size := 1
          type := DataSpecType.lines
          id := "cross-section-lines" }]
    ∧ (SceneCubeRenderer.render cube opts).length = 3 := by
  refine ⟨?_, ?_⟩ <;>
    simp [SceneCubeRenderer.render, SceneCubeRenderer.drawBox,
      SceneCubeRenderer.drawEdges, SceneCubeRenderer.drawWorldAxes,
      SceneCubeRenderer.drawCubeAxes, SceneCubeRenderer.drawXYplane,
      SceneCubeRenderer.drawCrossSectionLines, h1, h2, h3, h4]

/-- Witness for C2: with every axes/edges config absent, rendering the
concrete test cube yields the xy-plane polygon twice followed by the
cross-section line bundle. -/
theorem render_all_axes_absent_witness :
    optsAllAbsent.sceneEdges = none ∧ optsAllAbsent.edgeAxes = none
    ∧ optsAllAbsent.worldAxes = none ∧ optsAllAbsent.cubeAxes = none
    ∧ SceneCubeRenderer.render testCube optsAllAbsent =
      [Data2dSpecs.polygon
        { x := [2, 3, 3, 2], y := [0, 0, 1, 1],
          borderColor := "#0e2845", borderOpacity := 1, borderSize := 1,
          fillColor := "#0e2845", fillOpacity := 1/2,
          type := DataSpecType.polygon, id := "xy-plane" },
       Data2dSpecs.polygon
        { x := [2, 3, 3, 2], y := [0, 0, 1, 1],
          borderColor := "#0e2845", borderOpacity := 1, borderSize := 1,
          fillColor := "#0e2845", fillOpacity := 1/2,
          type := DataSpecType.polygon, id := "xy-plane" },
       Data2dSpecs.lines
        { x0 := [0, 1, 1, 3, 2, 2, 3, 3], y0 := [2, 2, 2, 2, 1, 0, 0, 1],
          x1 := [3, 2, 4, 5, 2, 3, 3, 2], y1 := [2, 2, 2, 2, 0, 0, 1, 1],
          color := "#079992", opacity := 1/2, size := 1,
          type := DataSpecType.lines, id := "cross-section-lines" }]
    ∧ (SceneCubeRenderer.render testCube optsAllAbsent).length = 3 := by
  have h := render_all_axes_absent testCube optsAllAbsent rfl rfl rfl rfl
  exact ⟨rfl, rfl, rfl, rfl, h.1, h.2⟩

/-- C8: render is deterministic — two calls on equal cube snapshots and
equal options return structurally equal primitive lists, with the same
tag sequence. -/
theorem render_deterministic (c1 c2 : SceneCube) (o1 o2 : SceneOptions)
    (hc : c1 = c2) (ho : o1 = o2) :
    SceneCubeRenderer.render c1 o1 = SceneCubeRenderer.render c2 o2
    ∧ (SceneCubeRenderer.render c1 o1).map Data2dSpecs.tagOf =
        (SceneCubeRenderer.render c2 o2).map Data2dSpecs.tagOf := by
  subst hc
  subst ho
  exact ⟨rfl, rfl⟩

/-- Witness for C8: two renders of the concrete test cube with the
same options agree, tags included. -/
theorem render_deterministic_witness :
    SceneCubeRenderer.render testCube optsAllAbsent =
      SceneCubeRenderer.render testCube optsAllAbsent
    ∧ (SceneCubeRenderer.render testCube optsAllAbsent).map
        Data2dSpecs.tagOf =
      (SceneCubeRenderer.render testCube optsAllAbsent).map
        Data2dSpecs.tagOf :=
  render_deterministic testCube testCube optsAllAbsent optsAllAbsent
    rfl rfl

/-- C9: render() does not depend on the xyPlane and crossLines option
fields — two options objects agreeing on sceneEdges, edgeAxes,
worldAxes and cubeAxes (hence differing at most in xyPlane and
crossLines) render identically on every cube. -/
theorem render_ignores_xyPlane_crossLines (cube : SceneCube)
    (o1 o2 : SceneOptions)
    (h1 : o1.sceneEdges = o2.sceneEdges) (h2 : o1.edgeAxes = o2.edgeAxes)
    (h3 : o1.worldAxes = o2.worldAxes) (h4 : o1.cubeAxes = o2.cubeAxes) :
    SceneCubeRenderer.render cube o1 = SceneCubeRenderer.render cube o2 := by
  unfold SceneCubeRenderer.render SceneCubeRenderer.drawBox
    SceneCubeRenderer.drawEdges SceneCubeRenderer.drawWorldAxes
    SceneCubeRenderer.drawCubeAxes
  rw [h1, h2, h3, h4]

/-- Witness for C9: toggling xyPlane and crossLines from absent to
present leaves the render of the concrete test cube unchanged. -/
theorem render_ignores_xyPlane_crossLines_witness :
    SceneCubeRenderer.render testCube optsAllAbsent =
      SceneCubeRenderer.render testCube optsPresenceOnly :=
  render_ignores_xyPlane_crossLines testCube optsAllAbsent
    optsPresenceOnly rfl rfl rfl rfl

/-- Counterexample to C4 as stated: with sceneEdges present with color
"#fff" and opacity 0, every face polygon gets borderOpacity 1, not the
configured opacity 0 — the `opacity || 1` fallback also fires on an
explicit 0. -/
theorem drawBox_zero_opacity_counterexample :
    optsEdgesZero.sceneEdges = some { color := "#fff", opacity := some 0 }
    ∧ (SceneCubeRenderer.drawBox testCube optsEdgesZero).map
        Polygon2dSpecs.borderOpacity = [1, 1, 1, 1, 1, 1]
    ∧ ¬ (SceneCubeRenderer.drawBox testCube optsEdgesZero).map
        Polygon2dSpecs.borderOpacity = [0, 0, 0, 0, 0, 0] := by
  refine ⟨rfl, by decide, by decide⟩

/-- C4 (amended): when sceneEdges is present with color c and opacity
o, drawBox returns 6 polygon specs in table order with the 4 face
vertices in winding order, borderColor c, borderSize 1, fillOpacity 0
and tags plane-0..plane-5, where borderOpacity is o when o is present
and nonzero, and 1 when o is omitted or 0; when sceneEdges is absent
drawBox returns the empty sequence. -/
theorem drawBox_spec (cube : SceneCube) (opts : SceneOptions)
    (se : SceneEdgesOptions) :
    (opts.sceneEdges = none → SceneCubeRenderer.drawBox cube opts = [])
    ∧ (opts.sceneEdges = some se →
        SceneCubeRenderer.drawBox cube opts =
          [{ x := [(cube.vertexPoints2d.getD 0 default).x,
                   (cube.vertexPoints2d.getD 1 default).x,
                   (cube.vertexPoints2d.getD 3 default).x,
                   (cube.vertexPoints2d.getD 2 default).x]
             y := [(cube.vertexPoints2d.getD 0 default).y,
                   (cube.vertexPoints2d.getD 1 default).y,
                   (cube.vertexPoints2d.getD 3 default).y,
                   (cube.vertexPoints2d.getD 2 default).y]
             borderColor := se.color, borderOpacity := jsOr se.opacity 1,
             borderSize := 1, fillColor := se.color, fillOpacity := 0,
             type := DataSpecType.polygon, id := "plane-0" },
           { x := [(cube.vertexPoints2d.getD 1 default).x,
                   (cube.vertexPoints2d.getD 5 default).x,
                   (cube.vertexPoints2d.getD 7 default).x,
                   (cube.vertexPoints2d.getD 3 default).x]
             y := [(cube.vertexPoints2d.getD 1 default).y,
                   (cube.vertexPoints2d.getD 5 default).y,
                   (cube.vertexPoints2d.getD 7 default).y,
                   (cube.vertexPoints2d.getD 3 default).y]
             borderColor := se.color, borderOpacity := jsOr se.opacity 1,
             borderSize := 1, fillColor := se.color, fillOpacity := 0,
             type := DataSpecType.polygon, id := "plane-1" },
           { x := [(cube.vertexPoints2d.getD 5 default).x,
                   (cube.vertexPoints2d.getD 4 default).x,
                   (cube.vertexPoints2d.getD 6 default).x,
                   (cube.vertexPoints2d.getD 7 default).x]
             y := [(cube.vertexPoints2d.getD 5 default).y,
                   (cube.vertexPoints2d.getD 4 default).y,
                   (cube.vertexPoints2d.getD 6 default).y,
                   (cube.vertexPoints2d.getD 7 default).y]
             borderColor := se.color, borderOpacity := jsOr se.opacity 1,
             borderSize := 1, fillColor := se.color, fillOpacity := 0,
             type := DataSpecType.polygon, id := "plane-2" },
           { x := [(cube.vertexPoints2d.getD 4 default).x,
                   (cube.vertexPoints2d.getD 0 default).x,
                   (cube.vertexPoints2d.getD 2 default).x,
                   (cube.vertexPoints2d.getD 6 default).x]
             y := [(cube.vertexPoints2d.getD 4 default).y,
                   (cube.vertexPoints2d.getD 0 default).y,
                   (cube.vertexPoints2d.getD 2 default).y,
                   (cube.vertexPoints2d.getD 6 default).y]
             borderColor := se.color, borderOpacity := jsOr se.opacity 1,
             borderSize := 1, fillColor := se.color, fillOpacity := 0,
             type := DataSpecType.polygon, id := "plane-3" },
           { x := [(cube.vertexPoints2d.getD 4 default).x,
                   (cube.vertexPoints2d.getD 5 default).x,
                   (cube.vertexPoints2d.getD 1 default).x,
                   (cube.vertexPoints2d.getD 0 default).x]
             y := [(cube.vertexPoints2d.getD 4 default).y,
                   (cube.vertexPoints2d.getD 5 default).y,
                   (cube.vertexPoints2d.getD 1 default).y,
                   (cube.vertexPoints2d.getD 0 default).y]
             borderColor := se.color, borderOpacity := jsOr se.opacity 1,
             borderSize := 1, fillColor := se.color, fillOpacity := 0,
             type := DataSpecType.polygon, id := "plane-4" },
           { x := [(cube.vertexPoints2d.getD 2 default).x,
                   (cube.vertexPoints2d.getD 3 default).x,
                   (cube.vertexPoints2d.getD 7 default).x,
                   (cube.vertexPoints2d.getD 6 default).x]
             y := [(cube.vertexPoints2d.getD 2 default).y,
                   (cube.vertexPoints2d.getD 3 default).y,
                   (cube.vertexPoints2d.getD 7 default).y,
                   (cube.vertexPoints2d.getD 6 default).y]
             borderColor := se.color, borderOpacity := jsOr se.opacity 1,
             borderSize := 1, fillColor := se.color, fillOpacity := 0,
             type := DataSpecType.polygon, id := "plane-5" }]) := by
  obtain ⟨sE, xy, cl, eA, wA, cA⟩ := opts
  constructor
  · intro h
    simp only at h
    subst h
    rfl
  · intro h
    simp only at h
    subst h
    rfl

/-- Witness for C4 (amended): on the concrete test cube, drawBox is
empty without sceneEdges, and with color "#fff" / opacity 0.8 yields
the six face outlines with borderOpacity 0.8. -/
theorem drawBox_spec_witness :
    SceneCubeRenderer.drawBox testCube optsAllAbsent = []
    ∧ SceneCubeRenderer.drawBox testCube optsEdges =
      [{ x := [0, 1, 1, 0], y := [0, 0, 1, 1], borderColor := "#fff",
         borderOpacity := Rat.mk' 4 5, borderSize := 1, fillColor := "#fff",
         fillOpacity := 0, type := DataSpecType.polygon,
         id := "plane-0" },
       { x := [1, 3, 3, 1], y := [0, 0, 1, 1], borderColor := "#fff",
         borderOpacity := Rat.mk' 4 5, borderSize := 1, fillColor := "#fff",
         fillOpacity := 0, type := DataSpecType.polygon,
         id := "plane-1" },
       { x := [3, 2, 2, 3], y := [0, 0, 1, 1], borderColor := "#fff",
         borderOpacity := Rat.mk' 4 5, borderSize := 1, fillColor := "#fff",
         fillOpacity := 0, type := DataSpecType.polygon,
         id := "plane-2" },
       { x := [2, 0, 0, 2], y := [0, 0, 1, 1], borderColor := "#fff",
         borderOpacity := Rat.mk' 4 5, borderSize := 1, fillColor := "#fff",
         fillOpacity := 0, type := DataSpecType.polygon,
         id := "plane-3" },
       { x := [2, 3, 1, 0], y := [0, 0, 0, 0], borderColor := "#fff",
         borderOpacity := Rat.mk' 4 5, borderSize := 1, fillColor := "#fff",
         fillOpacity := 0, type := DataSpecType.polygon,
         id := "plane-4" },
       { x := [0, 1, 3, 2], y := [1, 1, 1, 1], borderColor := "#fff",
         borderOpacity := Rat.mk' 4 5, borderSize := 1, fillColor := "#fff",
         fillOpacity := 0, type := DataSpecType.polygon,
         id := "plane-5" }] := by
  have h1 := (drawBox_spec testCube optsAllAbsent seTest).1 rfl
  have h2 := (drawBox_spec testCube optsEdges seTest).2 rfl
  refine ⟨h1, ?_⟩
  rw [h2]
  decide

/-- Counterexample to C7 as stated: with the xyPlane and crossLines
configs absent, the XY-plane renderer and the cross-section-lines
renderer still each emit one primitive — the render of the test cube
under the all-absent options has 3 primitives, not 0. -/
theorem ungated_subrenderers_counterexample :
    optsAllAbsent.xyPlane = none
    ∧ optsAllAbsent.crossLines = none
    ∧ (SceneCubeRenderer.drawXYplane testCube).length = 1
    ∧ (SceneCubeRenderer.drawCrossSectionLines testCube).length = 1
    ∧ (SceneCubeRenderer.render testCube optsAllAbsent).length = 3
    ∧ ¬ (SceneCubeRenderer.render testCube optsAllAbsent).length = 0 := by
  refine ⟨rfl, rfl, rfl, rfl, rfl, by decide⟩

/-- C7 (amended): the four gated sub-renderers (box, edge axes, world
axes, cube axes) return an empty sequence exactly when their feature
config is absent — absence of the config is their sole disable switch —
while the XY-plane and cross-section-lines renderers read no options
and always return exactly one primitive. -/
theorem subrenderer_gating (cube : SceneCube) (opts : SceneOptions) :
    (SceneCubeRenderer.drawBox cube opts = [] ↔ opts.sceneEdges = none)
    ∧ (SceneCubeRenderer.drawEdges cube opts = [] ↔ opts.edgeAxes = none)
    ∧ (SceneCubeRenderer.drawWorldAxes cube opts = []
        ↔ opts.worldAxes = none)
    ∧ (SceneCubeRenderer.drawCubeAxes cube opts = []
        ↔ opts.cubeAxes = none)
    ∧ (SceneCubeRenderer.drawXYplane cube).length = 1
    ∧ (SceneCubeRenderer.drawCrossSectionLines cube).length = 1 := by
  obtain ⟨sE, xy, cl, eA, wA, cA⟩ := opts
  refine ⟨?_, ?_, ?_, ?_, rfl, rfl⟩
  · cases sE <;>
      simp [SceneCubeRenderer.drawBox, POINT_FACE_SET, List.enum,
        List.enumFrom]
  · cases eA <;> simp [SceneCubeRenderer.drawEdges, drawAxes]
  · cases wA <;> simp [SceneCubeRenderer.drawWorldAxes, drawAxes]
  · cases cA <;> simp [SceneCubeRenderer.drawCubeAxes, drawAxes]

/-- Witness for C7 (amended): concrete check on the test cube — all
four gated sub-renderers are empty under the all-absent options while
the two unconditional ones emit one primitive each. -/
theorem subrenderer_gating_witness :
    (SceneCubeRenderer.drawBox testCube optsAllAbsent = []
      ↔ optsAllAbsent.sceneEdges = none)
    ∧ (SceneCubeRenderer.drawEdges testCube optsAllAbsent = []
        ↔ optsAllAbsent.edgeAxes = none)
    ∧ (SceneCubeRenderer.drawWorldAxes testCube optsAllAbsent = []
        ↔ optsAllAbsent.worldAxes = none)
    ∧ (SceneCubeRenderer.drawCubeAxes testCube optsAllAbsent = []
        ↔ optsAllAbsent.cubeAxes = none)
    ∧ (SceneCubeRenderer.drawXYplane testCube).length = 1
    ∧ (SceneCubeRenderer.drawCrossSectionLines testCube).length = 1 :=
  subrenderer_gating testCube optsAllAbsent

/-- C10: the styling fallbacks treat an explicit 0 like an absent
value — with edgeOpacity 0 the axis line bundles get opacity 1, with
lineSize 0 they get size 1, with intersectionPointSize 0 the marker
gets size 3, and with a sceneEdges opacity of 0 every face polygon
gets borderOpacity 1. -/
theorem zero_style_values_fall_back (p0 vx vy vz : Vec2) (name : String)
    (ao : AxesOptions) (cube : SceneCube) (opts : SceneOptions)
    (se : SceneEdgesOptions) :
    (ao.edgeOpacity = some 0 →
      ((drawAxes p0 vx vy vz name ao).take 3).map Data2dSpecs.opacityOf
        = [1, 1, 1])
    ∧ (ao.lineSize = some 0 →
      ((drawAxes p0 vx vy vz name ao).take 3).map Data2dSpecs.styleSize
        = [1, 1, 1])
    ∧ (ao.intersectionPointSize = some 0 →
      ((drawAxes p0 vx vy vz name ao).drop 3).map Data2dSpecs.styleSize
        = [3])
    ∧ (opts.sceneEdges = some se → se.opacity = some 0 →
      (SceneCubeRenderer.drawBox cube opts).map
        Polygon2dSpecs.borderOpacity = [1, 1, 1, 1, 1, 1]) := by
  refine ⟨?_, ?_, ?_, ?_⟩
  · intro h
    simp [drawAxes, drawAxis, jsOr, h, Data2dSpecs.opacityOf]
  · intro h
    simp [drawAxes, drawAxis, jsOr, h, Data2dSpecs.styleSize]
  · intro h
    simp [drawAxes, drawAxis, jsOr, h, Data2dSpecs.styleSize]
  · intro h1 h2
    obtain ⟨sE, xy, cl, eA, wA, cA⟩ := opts
    simp only at h1
    subst h1
    simp [SceneCubeRenderer.drawBox, POINT_FACE_SET, List.enum,
      List.enumFrom, jsOr, h2]

/-- Witness for C10: all four zero-valued style fields fall back to
their defaults on concrete inputs. -/
theorem zero_style_values_fall_back_witness :
    (((drawAxes ⟨0, 0⟩ ⟨1, 0⟩ ⟨0, 1⟩ ⟨1, 1⟩ "t" aoZero).take 3).map
        Data2dSpecs.opacityOf = [1, 1, 1])
    ∧ (((drawAxes ⟨0, 0⟩ ⟨1, 0⟩ ⟨0, 1⟩ ⟨1, 1⟩ "t" aoZero).take 3).map
        Data2dSpecs.styleSize = [1, 1, 1])
    ∧ (((drawAxes ⟨0, 0⟩ ⟨1, 0⟩ ⟨0, 1⟩ ⟨1, 1⟩ "t" aoZero).drop 3).map
        Data2dSpecs.styleSize = [3])
    ∧ ((SceneCubeRenderer.drawBox testCube optsEdgesZero).map
        Polygon2dSpecs.borderOpacity = [1, 1, 1, 1, 1, 1]) := by
  have h := zero_style_values_fall_back ⟨0, 0⟩ ⟨1, 0⟩ ⟨0, 1⟩ ⟨1, 1⟩ "t"
    aoZero testCube optsEdgesZero seZero
  exact ⟨h.1 rfl, h.2.1 rfl, h.2.2.1 rfl, h.2.2.2 rfl rfl⟩
